import Mathlib

/-!
Shallow embedding of the two scripts of the Simple-sensors repository:
`swap_monitor.py` (one-shot swap monitor) and `vero_temp_to_webhook.py`
(temperature-to-webhook forwarding loop).

External effects (the `free -m` subprocess, the sysfs temperature file, the
HTTP POST, the reboot command) are modelled as explicit outcome values fed
into the embedded functions; `print` calls on failure paths are modelled as
log-message values.  Python floats are modelled as rationals.
-/

/-- Whitespace characters recognised by Python str.split() with no argument
(space, tab, newline, carriage return, vertical tab, form feed). -/
def isPySpace (c : Char) : Bool :=
  c == ' ' || c == '\t' || c == '\n' || c == '\r' || c == '\x0b' || c == '\x0c'

/-- Accumulator-based splitter over the character list: splits on runs of
whitespace and drops empty fields, exactly like Python str.split(). -/
def splitWsAux : List Char → List Char → List String
  | [], acc => if acc.isEmpty then [] else [String.mk acc.reverse]
  | c :: cs, acc =>
    if isPySpace c then
      if acc.isEmpty then splitWsAux cs []
      else String.mk acc.reverse :: splitWsAux cs []
    else splitWsAux cs (c :: acc)

/-- Model of Python str.split() with no argument, as used in
`line.split()` of swap_monitor.py. -/
def pySplit (s : String) : List String := splitWsAux s.toList []

/-- Boolean prefix test on character lists. -/
def listIsPre : List Char → List Char → Bool
  | [], _ => true
  | _ :: _, [] => false
  | a :: as, b :: bs => if a == b then listIsPre as bs else false

/-- Model of Python str.startswith, as used in `line.startswith(...)`. -/
def pyStartsWith (s p : String) : Bool := listIsPre p.toList s.toList

/-- Digits-to-number accumulator. -/
def digitsVal (cs : List Char) : Nat :=
  cs.foldl (fun n c => n * 10 + (c.toNat - 48)) 0

/-- Nonempty all-digit check. -/
def allDigits (cs : List Char) : Bool := !cs.isEmpty && cs.all Char.isDigit

/-- Model of the Python builtin int(str): surrounding whitespace is ignored,
an optional sign is followed by a nonempty run of decimal digits; anything
else raises ValueError, modelled as `none`.  (Underscore digit separators
and non-ASCII digits, irrelevant to these scripts, are not modelled.) -/
def pyInt (s : String) : Option Int :=
  let cs := ((s.toList.dropWhile isPySpace).reverse.dropWhile isPySpace).reverse
  match cs with
  | '-' :: rest => if allDigits rest then some (-(digitsVal rest : Int)) else none
  | '+' :: rest => if allDigits rest then some (digitsVal rest : Int) else none
  | _ => if allDigits cs then some (digitsVal cs : Int) else none

/-! ## swap_monitor.py -/

/-- Diagnostic messages printed by get_swap_usage failure paths. -/
inductive LogMsg
  | swapLineNotFound
  | couldNotParseSwapValues
  | freeCommandNotFound
  | errorRunningFree (stderr : String)
  | unexpectedError (msg : String)
deriving DecidableEq

/-- Outcome of the `subprocess.run(["free", "-m"], ...)` call: either its
stdout (already divided into lines, modelling `result.stdout.splitlines()`),
or one of the exceptions the except-clauses catch. -/
inductive CmdResult
  | ok (lines : List String)
  | fileNotFound
  | calledProcessError (stderr : String)
  | otherError (msg : String)
deriving DecidableEq

/-- Loop body of get_swap_usage: scan the stdout lines for the first line
starting with Swap: that splits into at least 4 fields; parse fields 1 and 2
as ints, returning (None, None) plus an error message on ValueError, and
(None, None) plus the not-found message when the scan exhausts the lines. -/
def scanSwapLines : List String → (Option Int × Option Int) × List LogMsg
  | [] => ((none, none), [LogMsg.swapLineNotFound])
  | line :: rest =>
    if pyStartsWith line "Swap:" then
      if 4 ≤ (pySplit line).length then
        match pyInt ((pySplit line).getD 1 ""), pyInt ((pySplit line).getD 2 "") with
        | some t, some u => ((some t, some u), [])
        | _, _ => ((none, none), [LogMsg.couldNotParseSwapValues])
      else scanSwapLines rest
    else scanSwapLines rest

/-- Model of get_swap_usage: returns (total_swap_mb, used_swap_mb) or
(None, None), together with the diagnostic messages it prints. -/
def get_swap_usage : CmdResult → (Option Int × Option Int) × List LogMsg
  | .ok lines => scanSwapLines lines
  | .fileNotFound => ((none, none), [LogMsg.freeCommandNotFound])
  | .calledProcessError stderr =>
      ((none, none), [LogMsg.errorRunningFree stderr])
  | .otherError msg => ((none, none), [LogMsg.unexpectedError msg])

/-- Configuration constant SWAP_THRESHOLD_PERCENT = 90. -/
def SWAP_THRESHOLD_PERCENT : ℚ := 90

/-- Percentage computed by main: (used_swap / total_swap) * 100, with Python
float division modelled as rational division. -/
def swap_percentage (used total : ℤ) : ℚ := ((used : ℚ) / (total : ℚ)) * 100

/-- Outcome of the `subprocess.run(["sudo", "systemctl", "reboot"], ...)`
call inside reboot_lxc: success leads to sys.exit(0); each exception kind is
caught, logged and control returns to main. -/
inductive RebootResult
  | ok
  | fileNotFound
  | calledProcessError (stderr : String)
  | otherError (msg : String)
deriving DecidableEq

/-- Terminal outcome of one invocation of swap_monitor.py, one constructor
per control-flow path of main plus two crashes.  crashTypeError marks the
path Python would only reach if get_swap_usage returned a pair with total
an int but used None, where `used_swap / total_swap` would raise an
uncaught TypeError; the all-or-nothing property of the reader shows it is
unreachable.  syntaxErrorCrash is the interpreter-level outcome of
actually invoking the script: module compilation fails on line 113 before
main could run (see run_swap_monitor below). -/
inductive Outcome
  | rebooted
  | rebootFailed
  | belowThreshold
  | noSwapConfigured
  | readFailed
  | crashTypeError
  | syntaxErrorCrash
deriving DecidableEq

/-- Whether the outcome corresponds to the reboot action having been fired
(reboot_lxc was called). -/
def fires : Outcome → Bool
  | .rebooted => true
  | .rebootFailed => true
  | _ => false

namespace SwapMonitor

/-- Statement sequence of the body of swap_monitor.main as written (lines
112-129): the returned pair is the control-flow outcome and the exit
status that sequence would produce — sys.exit(0) on a successful reboot,
falling off the end otherwise, which also exits 0; an uncaught exception
would exit 1.  No invocation ever executes this body: module compilation
fails first on line 113 (see run_swap_monitor below), so this definition
captures the intended behaviour that the spec describes and that the
code-bug verdicts are judged against. -/
def main (cmd : CmdResult) (reboot : RebootResult) : Outcome × Nat :=
  match (get_swap_usage cmd).1 with
  | (some total, usedOpt) =>
    if 0 < total then
      match usedOpt with
      | some used =>
        if SWAP_THRESHOLD_PERCENT ≤ swap_percentage used total then
          match reboot with
          | .ok => (.rebooted, 0)
          | _ => (.rebootFailed, 0)
        else (.belowThreshold, 0)
      | none => (.crashTypeError, 1)
    else if total = 0 then (.noSwapConfigured, 0)
    else (.readFailed, 0)
  | (none, _) => (.readFailed, 0)

end SwapMonitor

/-!
Invocation semantics of swap_monitor.py.  CPython compiles the whole
module before executing any statement of it, and line 113 of the file,

    print(f "{current_timestamp}"":" "Running swap usage check.")

separates the f prefix from its string literal by a space, so it tokenizes
as the NAME f followed by a string literal — a sequence no production of
the Python grammar accepts (string-string juxtaposition is concatenation,
but name-string is nothing).  Compilation therefore aborts with a
SyntaxError and the interpreter exits with status 1 on every invocation;
no statement of the module ever runs.  So that the crash is computed
rather than assumed, the offending source line is embedded below together
with the fragment of the CPython tokenizer needed to exhibit the invalid
NAME-STRING pair.
-/

/-- Source text of swap_monitor.py line 113 (braces escaped). -/
def swapMonitorLine113 : String :=
  "    print(f \"\x7bcurrent_timestamp\x7d\"\":\" \"Running swap usage check.\")"

/-- Tokens of the CPython tokenizer fragment needed for line 113: names,
string literals, and single punctuation characters.  String escapes do not
occur in the line under scrutiny and are not modelled. -/
inductive PyTok
  | name (s : String)
  | strLit
  | punct (c : Char)
deriving DecidableEq

/-- Characters that may continue a Python identifier (ASCII fragment). -/
def isIdentChar (c : Char) : Bool := c.isAlphanum || c == '_'

/-- Identifiers CPython accepts as a string-literal prefix when written
directly against the opening quote, as in f"...".  (Upper-case variants
are omitted; no identifier touches a quote in the line under scrutiny
anyway.) -/
def strPrefixes : List String :=
  ["r", "b", "u", "f", "rb", "br", "fr", "rf"]

/-- State of the line scanner: outside any token, inside a string literal,
or inside an identifier carrying the reversed characters read so far. -/
inductive ScanState
  | top
  | inStr
  | inName (rev : List Char)

/-- One-pass tokenizer for a single source line, consuming one character
per step.  An identifier written directly against an opening quote with a
recognised prefix spelling fuses into a string token, exactly the rule
that makes f"..." one token but leaves f "..." as a NAME followed by a
separate string literal. -/
def scanLine : ScanState → List Char → List PyTok
  | .top, [] => []
  | .top, c :: cs =>
    if c == '"' then scanLine .inStr cs
    else if isIdentChar c then scanLine (.inName [c]) cs
    else if c == ' ' then scanLine .top cs
    else .punct c :: scanLine .top cs
  | .inStr, [] => [.strLit]
  | .inStr, c :: cs =>
    if c == '"' then .strLit :: scanLine .top cs
    else scanLine .inStr cs
  | .inName rev, [] => [.name (String.mk rev.reverse)]
  | .inName rev, c :: cs =>
    if isIdentChar c then scanLine (.inName (c :: rev)) cs
    else if c == '"' then
      if strPrefixes.contains (String.mk rev.reverse) then scanLine .inStr cs
      else .name (String.mk rev.reverse) :: scanLine .inStr cs
    else if c == ' ' then .name (String.mk rev.reverse) :: scanLine .top cs
    else .name (String.mk rev.reverse) :: .punct c :: scanLine .top cs

/-- Token stream of one source line. -/
def pyLineTokens (s : String) : List PyTok := scanLine .top s.toList

/-- Whether a name token stands directly before a string literal token —
the token pair no rule of the Python expression grammar accepts, reported
as a SyntaxError by the compiler. -/
def hasNameThenStr : List PyTok → Bool
  | .name _ :: .strLit :: _ => true
  | _ :: rest => hasNameThenStr rest
  | [] => false

/-- Model of one invocation of python3 swap_monitor.py: the interpreter
compiles the module first, and the scan of line 113 exhibits a name
directly before a string literal, so every run aborts with a SyntaxError
traceback and exit status 1; the body of main (SwapMonitor.main) is never
reached.  The guard is the computed scan of the embedded source line —
once one line fails to parse, the rest of the module is moot. -/
def run_swap_monitor (cmd : CmdResult) (reboot : RebootResult) : Outcome × Nat :=
  if hasNameThenStr (pyLineTokens swapMonitorLine113) then
    (Outcome.syntaxErrorCrash, 1)
  else
    SwapMonitor.main cmd reboot

/-! ## vero_temp_to_webhook.py -/

/-- Exceptions get_temperature can raise: OSError from opening or reading
the sysfs file, ValueError from int() on unparseable content.  Neither is
caught anywhere in the script. -/
inductive PyError
  | osError
  | valueError
deriving DecidableEq

/-- Outcome of opening and reading the temperature file. -/
inductive ReadResult
  | ok (content : String)
  | ioError
deriving DecidableEq

/-- Model of get_temperature: parses the whole file content with int() and
divides by 1000 (Python float division modelled as rational division); both
the I/O failure and the int() failure propagate as exceptions, since the
function body has no try/except. -/
def get_temperature : ReadResult → Except PyError ℚ
  | .ioError => .error .osError
  | .ok content =>
    match pyInt content with
    | some n => .ok ((n : ℚ) / 1000)
    | none => .error .valueError

/-- Statically configured webhook URL constant. -/
def webhook_url : String := "https://webhook.url"

/-- HTTP request as issued by requests.post: the URL, the JSON payload (an
object, modelled as a key-value list with rational values), and the timeout
argument in seconds (none would mean no timeout was passed). -/
structure PostRequest where
  url : String
  payload : List (String × ℚ)
  timeout : Option Nat
deriving DecidableEq

/-- Outcome of the requests.post call: a response bearing a status code, or
a raised requests exception — Timeout and the other RequestException
subclasses (connection errors etc.) are distinguished here because the spec
speaks of timeouts specifically; the except clause catches them all. -/
inductive PostResult
  | response (status : Nat)
  | timedOut
  | requestError (msg : String)
deriving DecidableEq

/-- Model of response.raise_for_status(): raises HTTPError exactly for
status codes in [400, 600) (client and server errors). -/
def raise_for_status (status : Nat) : Bool :=
  decide (400 ≤ status) && decide (status < 600)

/-- Model of send_to_webhook: builds the payload, performs exactly one POST
(first component lists the requests issued: always a singleton — no retry)
with timeout=10, and returns response.status_code when raise_for_status
does not raise, or None when the call raises a RequestException (timeout,
connection error, or HTTPError from a 4xx/5xx status), after printing the
error. -/
def send_to_webhook (temp : ℚ) (outcome : PostResult) :
    List PostRequest × Option Nat :=
  let req : PostRequest := ⟨webhook_url, [("temperature", temp)], some 10⟩
  match outcome with
  | .response st =>
    if raise_for_status st then ([req], none) else ([req], some st)
  | .timedOut => ([req], none)
  | .requestError _ => ([req], none)

/-- Observable events of one pass of the while-True loop body: the POST
attempt, the success or failure print, and the time.sleep call. -/
inductive Event
  | postAttempt (temp : ℚ)
  | logSuccess (temp : ℚ) (status : Nat)
  | logFailure (temp : ℚ)
  | sleep (seconds : Nat)
deriving DecidableEq

/-- Single pass of the loop body: read, send, print success when the
returned status is truthy (not None and nonzero) else print failure, then
sleep(10).  A read exception is not caught and escapes the loop body. -/
def loopIter (r : ReadResult) (p : PostResult) : Except PyError (List Event) :=
  match get_temperature r with
  | .error e => .error e
  | .ok t =>
    match (send_to_webhook t p).2 with
    | some s =>
      if s == 0 then .ok [.postAttempt t, .logFailure t, .sleep 10]
      else .ok [.postAttempt t, .logSuccess t s, .sleep 10]
    | none => .ok [.postAttempt t, .logFailure t, .sleep 10]

/-- Trace semantics of the while-True loop, driven by an externally supplied
trace of per-iteration I/O outcomes: the result is the events of the
consumed iterations together with the exception that escaped the loop and
crashed the process, if any.  A none second component means the loop was
still running when the supplied outcomes ran out — the loop itself has no
internal exit condition, so only the external trace (or a crash) bounds
it. -/
def runLoop : List (ReadResult × PostResult) → List Event × Option PyError
  | [] => ([], none)
  | (r, p) :: rest =>
    match loopIter r p with
    | .error e => ([], some e)
    | .ok evs =>
      let next := runLoop rest
      (evs ++ next.1, next.2)

/-- Number of POST attempts recorded in an event trace. -/
def attemptCount (evs : List Event) : Nat :=
  evs.countP fun e => match e with | .postAttempt _ => true | _ => false

/-- Shape of a healthy loop trace: a sequence of blocks, each one POST
attempt followed by exactly one success-or-failure print and a 10-second
sleep before the next attempt. -/
def wellShaped : List Event → Bool
  | [] => true
  | .postAttempt _ :: mid :: .sleep n :: rest =>
    (match mid with
     | .logSuccess _ _ => true
     | .logFailure _ => true
     | _ => false) && n == 10 && wellShaped rest
  | _ => false

/-! ## Helper lemmas -/

/-- Evaluation bridge for the percentage: the rational (used / total) * 100
equals the normalised fraction divInt (used * 100) total, which the kernel
can compute on concrete inputs. -/
theorem swap_percentage_divInt (u t : ℤ) :
    swap_percentage u t = Rat.divInt (u * 100) t := by
  unfold swap_percentage
  rw [Rat.divInt_eq_div, div_mul_eq_mul_div]
  push_cast
  ring_nf

/-- Scanner helper: the scan result is never a partial pair — it is either
(None, None) or a pair of two parsed integers. -/
theorem scan_all_or_nothing (lines : List String) :
    (scanSwapLines lines).1 = (none, none) ∨
    ∃ t u, (scanSwapLines lines).1 = (some t, some u) := by
  induction lines with
  | nil => left; rfl
  | cons line rest ih =>
    simp only [scanSwapLines]
    split_ifs with h1 h2
    · rcases h3 : pyInt ((pySplit line).getD 1 "") with _ | t <;>
        rcases h4 : pyInt ((pySplit line).getD 2 "") with _ | u <;>
        simp
    · exact ih
    · exact ih

/-- Reader helper: get_swap_usage never returns a partial pair. -/
theorem gsu_all_or_nothing (cmd : CmdResult) :
    (get_swap_usage cmd).1 = (none, none) ∨
    ∃ t u, (get_swap_usage cmd).1 = (some t, some u) := by
  rcases cmd with lines | _ | stderr | msg
  · exact scan_all_or_nothing lines
  · left; rfl
  · left; rfl
  · left; rfl

/-- Crash helper: the scan of line 113 tokenizes the name f directly
before a string literal, so every invocation of swap_monitor.py is a
SyntaxError crash with exit status 1, whatever the free command or the
reboot command would have done. -/
theorem run_swap_monitor_crash (cmd : CmdResult) (reboot : RebootResult) :
    run_swap_monitor cmd reboot = (Outcome.syntaxErrorCrash, 1) := by
  unfold run_swap_monitor
  rw [if_pos]
  show hasNameThenStr (pyLineTokens swapMonitorLine113) = true
  decide

/-- Crash helper, token-level view: line 113 scans to print, an opening
parenthesis, the bare name f, and then three adjacent string literals
followed by the closing parenthesis — with the name-string pair in the
middle that the grammar rejects. -/
theorem line113_tokens :
    pyLineTokens swapMonitorLine113 =
      [PyTok.name "print", PyTok.punct '(', PyTok.name "f", PyTok.strLit,
        PyTok.strLit, PyTok.strLit, PyTok.punct ')'] := by
  decide

/-- Scanner helper: when the lines before the target row contain no row
starting with Swap:, and the target row has at least 4 fields whose 2nd and
3rd parse as integers, the scan returns exactly those integers. -/
theorem scan_finds_first_row (pre : List String) (line : String)
    (post : List String) (t u : ℤ)
    (hpre : ∀ l ∈ pre, pyStartsWith l "Swap:" = false)
    (hline : pyStartsWith line "Swap:" = true)
    (hlen : 4 ≤ (pySplit line).length)
    (ht : pyInt ((pySplit line).getD 1 "") = some t)
    (hu : pyInt ((pySplit line).getD 2 "") = some u) :
    scanSwapLines (pre ++ line :: post) = ((some t, some u), []) := by
  induction pre with
  | nil =>
    simp only [List.nil_append, scanSwapLines]
    rw [if_pos hline, if_pos hlen, ht, hu]
  | cons a as ih =>
    have ha : pyStartsWith a "Swap:" = false := hpre a (by simp)
    simp only [List.cons_append, scanSwapLines]
    rw [if_neg (by simp [ha])]
    exact ih fun l hl => hpre l (by simp [hl])

/-- Scanner helper: with no Swap: row at all, the scan reports the
not-found diagnostic and (None, None). -/
theorem scan_no_row (lines : List String)
    (h : ∀ l ∈ lines, pyStartsWith l "Swap:" = false) :
    scanSwapLines lines = ((none, none), [LogMsg.swapLineNotFound]) := by
  induction lines with
  | nil => rfl
  | cons a as ih =>
    simp only [scanSwapLines]
    rw [if_neg (by simp [h a (by simp)])]
    exact ih fun l hl => h l (by simp [hl])

/-- Scanner helper: when the first Swap: row has at least 4 fields but its
2nd or 3rd field does not parse as an integer, the scan reports the
ValueError diagnostic and (None, None). -/
theorem scan_bad_row (pre : List String) (line : String) (post : List String)
    (hpre : ∀ l ∈ pre, pyStartsWith l "Swap:" = false)
    (hline : pyStartsWith line "Swap:" = true)
    (hlen : 4 ≤ (pySplit line).length)
    (hbad : pyInt ((pySplit line).getD 1 "") = none ∨
            pyInt ((pySplit line).getD 2 "") = none) :
    scanSwapLines (pre ++ line :: post) =
      ((none, none), [LogMsg.couldNotParseSwapValues]) := by
  induction pre with
  | nil =>
    simp only [List.nil_append, scanSwapLines]
    rw [if_pos hline, if_pos hlen]
    rcases hbad with hb1 | hb2
    · rw [hb1]
    · rcases hfst : pyInt ((pySplit line).getD 1 "") with _ | t
      · rfl
      · rw [hb2]
  | cons a as ih =>
    have ha : pyStartsWith a "Swap:" = false := hpre a (by simp)
    simp only [List.cons_append, scanSwapLines]
    rw [if_neg (by simp [ha])]
    exact ih fun l hl => hpre l (by simp [hl])

/-! ## Claims about swap_monitor.py -/

/-- C1 counterexample: at an input where the claim demands exit status 0 —
a successful read showing 10 percent usage, well below the threshold, so
no trigger — the process exits 1: the line-113 SyntaxError aborts every
run before the check happens.  The exactly-on-read-failure direction falls
at the same stroke, since the status is 1 whatever the read outcome. -/
theorem run_no_trigger_exits_nonzero :
    run_swap_monitor (CmdResult.ok ["Swap: 100 10 90"]) RebootResult.ok =
      (Outcome.syntaxErrorCrash, 1) :=
  run_swap_monitor_crash _ _

/-- C1 (amended): in one-shot mode the exit status never reflects the
outcome: every invocation exits with status 1, killed by the line-113
SyntaxError before any read, evaluation or action takes place.  (Had the
body run, it would have had no non-zero path either — see
swap_main_body_exit_zero — so the non-zero-on-read-failure part of the
claim was wrong even of the intended control flow.) -/
theorem run_exit_status_always_one (cmd : CmdResult) (reboot : RebootResult) :
    (run_swap_monitor cmd reboot).2 = 1 := by
  rw [run_swap_monitor_crash]

/-- Supporting lemma for C1: even the statement sequence of main's body as
written exits 0 on every path — action success, no trigger,
reboot-command failure, and also unrecoverable read failure, which merely
prints and falls off the end of main. -/
theorem swap_main_body_exit_zero (cmd : CmdResult) (reboot : RebootResult) :
    (SwapMonitor.main cmd reboot).2 = 0 := by
  unfold SwapMonitor.main
  rcases gsu_all_or_nothing cmd with h | ⟨t, u, h⟩
  · simp only [h]
  · simp only [h]
    split_ifs with h1 h2
    · cases reboot <;> rfl
    · rfl
    · rfl
    · rfl

/-- Supporting lemma for C3: the statement sequence of main's body
implements exactly the claimed rule — for total > 0 the reboot fires iff
(used / total) * 100 is at least the threshold, inclusive — so the spec
does describe the intent of lines 118-125; the body is just never
reached at runtime. -/
theorem trigger_iff_threshold (cmd : CmdResult) (reboot : RebootResult)
    (total used : ℤ)
    (hread : (get_swap_usage cmd).1 = (some total, some used))
    (hpos : 0 < total) :
    fires (SwapMonitor.main cmd reboot).1 = true ↔
      SWAP_THRESHOLD_PERCENT ≤ swap_percentage used total := by
  unfold SwapMonitor.main
  simp only [hread]
  rw [if_pos hpos]
  split_ifs with h
  · cases reboot <;> simp [fires, h]
  · simp [fires, h]

/-- Boundary instance of the supporting lemma: in the body model, the
case used=90, total=100, threshold=90 fires the reboot. -/
theorem trigger_iff_threshold_boundary :
    fires (SwapMonitor.main (CmdResult.ok ["Swap: 100 90 10"])
      RebootResult.ok).1 = true := by
  refine (trigger_iff_threshold _ RebootResult.ok 100 90
    (by decide) (by decide)).mpr ?_
  rw [swap_percentage_divInt]
  decide

/-- C3 (code bug): the claim matches the comparison written at lines
118-125 (see trigger_iff_threshold and its boundary instance), but the
code never runs it — at the claim's own boundary input, free output with
used=90 and total=100 against threshold 90, the invocation crashes with
the startup SyntaxError and exit status 1 instead of firing the reboot. -/
theorem run_boundary_trigger_crashes :
    run_swap_monitor (CmdResult.ok ["Swap: 100 90 10"]) RebootResult.ok =
      (Outcome.syntaxErrorCrash, 1) :=
  run_swap_monitor_crash _ _

/-- Supporting lemma for C4: in the statement sequence of main's body,
whenever the reader reports total = 0 (whatever the used field), the
explicit no-swap-configured branch of lines 126-127 is taken: no division
is evaluated, the reboot action is not fired, and that sequence exits 0 —
the intent the spec describes, never reached at runtime. -/
theorem zero_total_no_action (cmd : CmdResult) (reboot : RebootResult)
    (usedOpt : Option ℤ)
    (hread : (get_swap_usage cmd).1 = (some 0, usedOpt)) :
    SwapMonitor.main cmd reboot = (Outcome.noSwapConfigured, 0) ∧
    fires (SwapMonitor.main cmd reboot).1 = false := by
  have hmain : SwapMonitor.main cmd reboot = (Outcome.noSwapConfigured, 0) := by
    unfold SwapMonitor.main
    simp only [hread]
    norm_num
  exact ⟨hmain, by rw [hmain]; rfl⟩

/-- Concrete instance of the supporting lemma: in the body model, a free
output with a 0 MiB swap row takes the no-swap-configured branch. -/
theorem zero_total_no_action_instance :
    SwapMonitor.main (CmdResult.ok ["Swap: 0 0 0"]) RebootResult.ok =
      (Outcome.noSwapConfigured, 0) :=
  (zero_total_no_action _ RebootResult.ok (some 0) (by decide)).1

/-- C4 (code bug): the claim matches the total == 0 branch written at
lines 126-127 (see zero_total_no_action), but no invocation reaches it —
with a free output reporting 0 MiB total swap, the run crashes with the
startup SyntaxError and exit status 1, and the no-swap log line is never
printed, so the case is not treated as a defined no-op outcome. -/
theorem run_zero_total_crashes :
    run_swap_monitor (CmdResult.ok ["Swap: 0 0 0"]) RebootResult.ok =
      (Outcome.syntaxErrorCrash, 1) :=
  run_swap_monitor_crash _ _

/-- C5: for every tabular input whose first Swap:-labelled row has at least
four whitespace-delimited fields with integer 2nd and 3rd fields, the
reader returns exactly those two fields parsed as integers (total, used). -/
theorem reader_extracts_fields (pre : List String) (line : String)
    (post : List String) (t u : ℤ)
    (hpre : ∀ l ∈ pre, pyStartsWith l "Swap:" = false)
    (hline : pyStartsWith line "Swap:" = true)
    (hlen : 4 ≤ (pySplit line).length)
    (ht : pyInt ((pySplit line).getD 1 "") = some t)
    (hu : pyInt ((pySplit line).getD 2 "") = some u) :
    (get_swap_usage (CmdResult.ok (pre ++ line :: post))).1 =
      (some t, some u) := by
  simp only [get_swap_usage]
  rw [scan_finds_first_row pre line post t u hpre hline hlen ht hu]

/-- C5 witness: a realistic three-line free -m output yields
(total, used) = (2048, 1900). -/
theorem reader_extracts_fields_witness :
    (get_swap_usage (CmdResult.ok
      (["              total        used        free      shared  buff/cache   available",
        "Mem:           7976        3318         692          18        4217        4657"] ++
        "Swap:          2048        1900         148" :: []))).1 =
      (some 2048, some 1900) :=
  reader_extracts_fields _ _ _ 2048 1900 (by decide) (by decide) (by decide)
    (by decide) (by decide)

/-- C6: on every failure — missing free command, failing free command, any
other exception, output without a Swap: row, or a Swap: row whose integer
fields do not parse — the reader returns the failure value (None, None)
together with a diagnostic message, never a partial or garbage pair (the
model is a total function, so no exception crosses the boundary). -/
theorem reader_failure_returns_none (stderr msg : String)
    (lines pre : List String) (line : String) (post : List String) :
    get_swap_usage CmdResult.fileNotFound =
      ((none, none), [LogMsg.freeCommandNotFound]) ∧
    get_swap_usage (CmdResult.calledProcessError stderr) =
      ((none, none), [LogMsg.errorRunningFree stderr]) ∧
    get_swap_usage (CmdResult.otherError msg) =
      ((none, none), [LogMsg.unexpectedError msg]) ∧
    ((∀ l ∈ lines, pyStartsWith l "Swap:" = false) →
      get_swap_usage (CmdResult.ok lines) =
        ((none, none), [LogMsg.swapLineNotFound])) ∧
    ((∀ l ∈ pre, pyStartsWith l "Swap:" = false) →
      pyStartsWith line "Swap:" = true →
      4 ≤ (pySplit line).length →
      (pyInt ((pySplit line).getD 1 "") = none ∨
        pyInt ((pySplit line).getD 2 "") = none) →
      get_swap_usage (CmdResult.ok (pre ++ line :: post)) =
        ((none, none), [LogMsg.couldNotParseSwapValues])) := by
  refine ⟨rfl, rfl, rfl, ?_, ?_⟩
  · exact fun h => scan_no_row lines h
  · exact fun h1 h2 h3 h4 => scan_bad_row pre line post h1 h2 h3 h4

/-- C6 witness: an output with no Swap: row, and one whose Swap: row has
non-integer fields, both yield (None, None) with the matching
diagnostics. -/
theorem reader_failure_returns_none_witness :
    get_swap_usage (CmdResult.ok ["Mem: 1 2 3"]) =
      ((none, none), [LogMsg.swapLineNotFound]) ∧
    get_swap_usage (CmdResult.ok (([] : List String) ++ "Swap: a b c" :: [])) =
      ((none, none), [LogMsg.couldNotParseSwapValues]) := by
  constructor
  · exact (reader_failure_returns_none "" "" ["Mem: 1 2 3"] []
      "Swap: a b c" []).2.2.2.1 (by decide)
  · exact (reader_failure_returns_none "" "" ["Mem: 1 2 3"] []
      "Swap: a b c" []).2.2.2.2 (by decide) (by decide) (by decide)
      (Or.inl (by decide))

/-- C10: the reader result is all-or-nothing — either (None, None) or a
pair of two integers, never a pair with exactly one None; hence when main
sees a total that is an integer greater than 0, the used value is an
integer too and the percentage computation is well-defined. -/
theorem reader_all_or_nothing (cmd : CmdResult) :
    (get_swap_usage cmd).1 = (none, none) ∨
    ∃ t u, (get_swap_usage cmd).1 = (some t, some u) :=
  gsu_all_or_nothing cmd

/-! ## Claims about vero_temp_to_webhook.py -/

/-- Helper: raise_for_status raises exactly on the 4xx/5xx range. -/
theorem raise_for_status_iff (st : Nat) :
    raise_for_status st = true ↔ 400 ≤ st ∧ st < 600 := by
  simp [raise_for_status]

/-- Helper: when the read succeeds, a loop iteration produces exactly one
POST attempt, one print, and one sleep(10), whatever the POST outcome. -/
theorem loopIter_ok_shape (r : ReadResult) (p : PostResult) (t : ℚ)
    (h : get_temperature r = Except.ok t) :
    (∃ s, loopIter r p =
      .ok [Event.postAttempt t, Event.logSuccess t s, Event.sleep 10]) ∨
    loopIter r p =
      .ok [Event.postAttempt t, Event.logFailure t, Event.sleep 10] := by
  rcases hs : (send_to_webhook t p).2 with _ | s
  · right; simp [loopIter, h, hs]
  · by_cases h0 : s = 0
    · right; simp [loopIter, h, hs, h0]
    · left; exact ⟨s, by simp [loopIter, h, hs, h0]⟩

/-- Helper: when the read raises, the exception escapes the iteration. -/
theorem loopIter_error (r : ReadResult) (p : PostResult) (e : PyError)
    (h : get_temperature r = Except.error e) :
    loopIter r p = Except.error e := by
  unfold loopIter
  rw [h]

/-- C2 counterexample: a failure to read the temperature file on the very
first iteration terminates the loop-mode process — the exception escapes
the while loop (the claim says no read failure terminates the process). -/
theorem loop_read_failure_crashes :
    runLoop [(ReadResult.ioError, PostResult.response 200)] =
      ([], some PyError.osError) := rfl

/-- Loop-mode crash helper: an action failure never crashes the process
(with all reads succeeding the loop never terminates internally, whatever
the POST outcomes), but a temperature read failure propagates — the
process crashes if and only if some read in the consumed trace raises,
and the escaping exception is the one the read raised. -/
theorem loop_crash_iff_read_failure (trace : List (ReadResult × PostResult)) :
    ((∀ x ∈ trace, ∃ t, get_temperature x.1 = Except.ok t) →
      (runLoop trace).2 = none) ∧
    (∀ e, (runLoop trace).2 = some e →
      ∃ x ∈ trace, get_temperature x.1 = Except.error e) := by
  induction trace with
  | nil => exact ⟨fun _ => rfl, fun e h => by simp [runLoop] at h⟩
  | cons a rest ih =>
    obtain ⟨r, p⟩ := a
    constructor
    · intro hall
      obtain ⟨t, ht⟩ := hall (r, p) (by simp)
      rcases loopIter_ok_shape r p t ht with ⟨s, hs⟩ | hs <;>
        simp only [runLoop, hs] <;>
        exact ih.1 fun x hx => hall x (by simp [hx])
    · intro e he
      rcases hg : get_temperature r with err | t
      · have hit := loopIter_error r p err hg
        simp only [runLoop, hit] at he
        refine ⟨(r, p), by simp, ?_⟩
        injection he with he2
        rw [hg, he2]
      · rcases loopIter_ok_shape r p t hg with ⟨s, hs⟩ | hs <;>
        · simp only [runLoop, hs] at he
          obtain ⟨x, hx, hx2⟩ := ih.2 e he
          exact ⟨x, by simp [hx], hx2⟩

/-- C2 (amended): neither mode satisfies the no-crash policy.  Every
invocation of the one-shot monitor crashes at startup with the line-113
SyntaxError and exit status 1 — no log line, no defined outcome.  In loop
mode action failures never crash the process (with all reads succeeding
the loop never terminates internally, whatever the POST outcomes), but a
temperature read failure propagates out of the uncaught while loop: the
loop-mode process crashes iff some read in the consumed trace raises,
with exactly the exception the read raised. -/
theorem crash_behavior_both_modes (trace : List (ReadResult × PostResult)) :
    (∀ cmd reboot, run_swap_monitor cmd reboot =
      (Outcome.syntaxErrorCrash, 1)) ∧
    ((∀ x ∈ trace, ∃ t, get_temperature x.1 = Except.ok t) →
      (runLoop trace).2 = none) ∧
    (∀ e, (runLoop trace).2 = some e →
      ∃ x ∈ trace, get_temperature x.1 = Except.error e) :=
  ⟨run_swap_monitor_crash, (loop_crash_iff_read_failure trace).1,
    (loop_crash_iff_read_failure trace).2⟩

/-- C2 witness: with a successful read and a failing POST the loop neither
crashes nor exits, while the one-shot script crashes even on a read
failure it was claimed to log and absorb. -/
theorem crash_behavior_both_modes_witness :
    (runLoop [(ReadResult.ok "1000", PostResult.requestError "boom")]).2 =
      none ∧
    run_swap_monitor CmdResult.fileNotFound RebootResult.ok =
      (Outcome.syntaxErrorCrash, 1) := by
  have h := crash_behavior_both_modes
    [(ReadResult.ok "1000", PostResult.requestError "boom")]
  refine ⟨h.2.1 ?_, h.1 CmdResult.fileNotFound RebootResult.ok⟩
  intro x hx
  rw [List.mem_singleton] at hx
  subst hx
  exact ⟨((1000 : ℤ) : ℚ) / 1000, rfl⟩

/-- C7 counterexample: the claim says every non-2xx response is treated as
a failure, but a 304 response (non-2xx) passes raise_for_status and is
returned as a success status. -/
theorem webhook_non2xx_not_failure :
    (send_to_webhook 45 (PostResult.response 304)).2 = some 304 ∧
    (304 < 200 ∨ 300 ≤ 304) := ⟨rfl, by decide⟩

/-- C7 (amended): the webhook action issues exactly one POST per call with
timeout 10 (no retry within the cycle), returns None after logging exactly
when the request raises — a timeout, another request exception, or the
HTTPError that raise_for_status raises for a 4xx/5xx status — and returns
the HTTP status for every other response, 3xx and 1xx included. -/
theorem webhook_failure_semantics (temp : ℚ) (outcome : PostResult) :
    (send_to_webhook temp outcome).1 =
      [⟨webhook_url, [("temperature", temp)], some 10⟩] ∧
    ((send_to_webhook temp outcome).2 = none ↔
      outcome = PostResult.timedOut ∨
      (∃ m, outcome = PostResult.requestError m) ∨
      (∃ st, outcome = PostResult.response st ∧ 400 ≤ st ∧ st < 600)) ∧
    (∀ st, outcome = PostResult.response st → ¬ (400 ≤ st ∧ st < 600) →
      (send_to_webhook temp outcome).2 = some st) := by
  rcases outcome with st | _ | m
  · by_cases h : 400 ≤ st ∧ st < 600
    · have hr : raise_for_status st = true := (raise_for_status_iff st).mpr h
      refine ⟨by simp [send_to_webhook, hr], ?_, ?_⟩
      · exact iff_of_true (by simp [send_to_webhook, hr])
          (Or.inr (Or.inr ⟨st, rfl, h⟩))
      · intro st' heq hnot
        injection heq with h2
        subst h2
        exact absurd h hnot
    · have hr : raise_for_status st = false := by
        rcases hb : raise_for_status st with _ | _
        · rfl
        · exact absurd ((raise_for_status_iff st).mp hb) h
      refine ⟨by simp [send_to_webhook, hr], ?_, ?_⟩
      · constructor
        · intro hc
          exact absurd hc (by simp [send_to_webhook, hr])
        · rintro (hc | ⟨m, hc⟩ | ⟨st', hc, hb⟩)
          · exact absurd hc (by simp)
          · exact absurd hc (by simp)
          · injection hc with h2
            subst h2
            exact absurd hb h
      · intro st' heq hnot
        injection heq with h2
        subst h2
        simp [send_to_webhook, hr]
  · refine ⟨rfl, iff_of_true rfl (Or.inl rfl), ?_⟩
    intro st heq
    exact absurd heq (by simp)
  · refine ⟨rfl, iff_of_true rfl (Or.inr (Or.inl ⟨m, rfl⟩)), ?_⟩
    intro st heq
    exact absurd heq (by simp)

/-- C7 witness: a timed-out POST is reported as a failure (None), and the
issued request carried timeout 10 with the temperature payload. -/
theorem webhook_failure_semantics_witness :
    (send_to_webhook 45 PostResult.timedOut).2 = none ∧
    (send_to_webhook 45 PostResult.timedOut).1 =
      [⟨webhook_url, [("temperature", 45)], some 10⟩] := by
  have h := webhook_failure_semantics 45 PostResult.timedOut
  exact ⟨h.2.1.mpr (Or.inl rfl), h.1⟩

/-- C8: over any trace whose reads all succeed, the loop makes exactly one
POST attempt per read (N attempts for N reads), every attempt is followed
by one print and a sleep(10) before the next attempt regardless of the
action outcome, and the loop never terminates of its own accord (the crash
component stays none; only the end of the externally supplied trace bounds
the run). -/
theorem loop_attempts_per_read (trace : List (ReadResult × PostResult))
    (hall : ∀ x ∈ trace, ∃ t, get_temperature x.1 = Except.ok t) :
    attemptCount (runLoop trace).1 = trace.length ∧
    wellShaped (runLoop trace).1 = true ∧
    (runLoop trace).2 = none := by
  induction trace with
  | nil => exact ⟨rfl, rfl, rfl⟩
  | cons a rest ih =>
    obtain ⟨r, p⟩ := a
    obtain ⟨t, ht⟩ := hall (r, p) (by simp)
    have hrest := ih fun x hx => hall x (by simp [hx])
    rcases loopIter_ok_shape r p t ht with ⟨s, hs⟩ | hs <;>
      simp only [runLoop, hs] <;>
      simp [attemptCount, wellShaped, List.countP_cons, hrest.1, hrest.2.1,
        hrest.2.2, attemptCount] <;>
      exact hrest.1

/-- C8 witness: two successful reads with one successful and one timed-out
POST yield exactly two POST attempts and no crash. -/
theorem loop_attempts_per_read_witness :
    attemptCount (runLoop [(ReadResult.ok "45230", PostResult.response 200),
      (ReadResult.ok "45230", PostResult.timedOut)]).1 = 2 := by
  have hall : ∀ x ∈ [(ReadResult.ok "45230", PostResult.response 200),
      (ReadResult.ok "45230", PostResult.timedOut)],
      ∃ t, get_temperature x.1 = Except.ok t := by
    intro x hx
    simp only [List.mem_cons, List.not_mem_nil, or_false] at hx
    rcases hx with h | h <;> subst h <;>
      exact ⟨((45230 : ℤ) : ℚ) / 1000, rfl⟩
  exact (loop_attempts_per_read _ hall).1

/-- C9: sensor file content 45230 yields the temperature 45.23 (the parsed
integer divided by 1000), and every call of the webhook action posts a JSON
object with the single key temperature mapped to the reading. -/
theorem temperature_payload_e2e :
    get_temperature (ReadResult.ok "45230") = Except.ok ((4523 : ℚ) / 100) ∧
    ∀ (t : ℚ) (o : PostResult), (send_to_webhook t o).1 =
      [⟨webhook_url, [("temperature", t)], some 10⟩] := by
  constructor
  · have h : pyInt "45230" = some 45230 := by decide
    have h2 : ((45230 : ℤ) : ℚ) / 1000 = (4523 : ℚ) / 100 := by norm_num
    simp only [get_temperature, h, h2]
  · intro t o
    rcases o with st | _ | m
    · simp only [send_to_webhook]
      split_ifs <;> rfl
    · rfl
    · rfl
